import Mathlib

/-!
# Bootstrap layer of the `draft` command line tool

A shallow embedding of `cmd/draft/draft.go`: resolution of the configuration
home (`defaultDraftHome` and the `--home` flag), loading of the persisted
configuration (`ReadConfig`), the pre-execution hook of the root command
(`PersistentPreRunE`), argument-count validation (`validateArgs`) and the
mapping of the dispatch result to the process exit code (`main`).

Go values are embedded as follows.

* `string` is `String`; an `error` is `Option String`, `none` being the `nil`
  error and `some m` an error whose `Error()` text is `m`.
* `DraftConfig` (`map[string]string`) is `Option (List (String × String))`,
  `none` being the `nil` map.
* The process environment is a function `String → String`: `os.Getenv`
  answers the empty string for a variable that is not set.
* Everything the file calls outside itself and that is not fixed by the Go
  language (the host operating system, `filepath.Join`, the `Config` method of
  `draftpath.Home`, `os.Open`, `toml.DecodeReader`) is a field of `Host`, so
  that every theorem holds for all of their behaviours.
-/

namespace Draft

/-! ## Data model -/

/-- Name of the environment variable that holds the configuration home (`homeEnvVar`). -/
def homeEnvVar : String := "DRAFT_HOME"

/-- The process environment as `os.Getenv` reads it. -/
abbrev Environ := String → String

/-- Reading of a variable, `os.Getenv key`. -/
def getenv (env : Environ) (key : String) : String := env key

/-- Writing of a variable, `os.Setenv key value`: later reads of `key` give `value`,
all other variables are untouched. The caller discards the error `os.Setenv` returns;
the write is taken to succeed, as it does for the constant key `DRAFT_HOME` and a value
without a NUL byte (values that come from the command line or the environment have none). -/
def setenv (env : Environ) (key value : String) : Environ :=
  fun k => if k = key then value else env k

/-- The configuration stored in `$DRAFT_HOME/config.toml` (`DraftConfig`); `none` is
the `nil` map. -/
abbrev DraftConfig := Option (List (String × String))

/-- Entries held by a configuration; the `nil` map holds none. -/
def DraftConfig.entries (c : DraftConfig) : List (String × String) :=
  c.getD []

/-- A Go `error`: `none` is `nil`, `some m` has `Error()` text `m`. -/
abbrev GoError := Option String

/-- An error returned by `os.Open`, as `ReadConfig` observes it: its `Error()` text
and the answer of `os.IsNotExist` on it. -/
structure OsError where
  text : String
  notExist : Bool
  deriving DecidableEq, Repr

/-- Outcome of `os.Open` on a path: an open file, given by its contents, or an error. -/
inductive OpenResult where
  | file (contents : String)
  | fail (err : OsError)
  deriving DecidableEq, Repr

/-- Outcome of `toml.DecodeReader(f, &data)`: the value the decoder left in `data`
(it may have stored entries before it met the fault) and the error it returned. -/
structure DecodeResult where
  data : DraftConfig
  err : GoError
  deriving DecidableEq, Repr

/-- Everything `draft.go` consults outside itself. -/
structure Host where
  /-- Value of `runtime.GOOS`. -/
  goos : String
  /-- The function `filepath.Join` of the host. -/
  join : List String → String
  /-- The method `Config` of `draftpath.Home`: path of the config file under a home. -/
  config : String → String
  /-- The function `os.Open`, by path. -/
  openFile : String → OpenResult
  /-- The function `toml.DecodeReader` on the contents of an open file, `data` being `nil` before. -/
  decode : String → DecodeResult

/-- Log levels of logrus that the hook distinguishes. -/
inductive LogLevel where
  | info
  | debug
  deriving DecidableEq, Repr

/-- The package-level variables of `draft.go` together with the process state the
hook writes (environment and log level). -/
structure State where
  flagDebug : Bool
  draftHome : String
  globalConfig : DraftConfig
  env : Environ
  logLevel : LogLevel

/-! ## Operations -/

/-- The function `defaultDraftHome`. -/
def defaultDraftHome (h : Host) (env : Environ) : String :=
  let home := getenv env homeEnvVar
  if home ≠ "" then home
  else
    let homeEnvPath := getenv env "HOME"
    let homeEnvPath :=
      if homeEnvPath = "" ∧ h.goos = "windows" then getenv env "USERPROFILE" else homeEnvPath
    h.join [homeEnvPath, ".draft"]

/-- The part of `newRootCmd` that touches `draftHome`: registering the `--home` flag
with `StringVar` stores the default, `defaultDraftHome()`, in the variable. -/
def newRootCmd (h : Host) (s : State) : State :=
  { s with draftHome := defaultDraftHome h s.env }

/-- Parsing of the command line as far as `--home` goes: when the user gave the flag
its value is stored in `draftHome`, otherwise the variable keeps the default. -/
def parseHomeFlag (flag : Option String) (s : State) : State :=
  match flag with
  | some v => { s with draftHome := v }
  | none => s

/-- Rendering of an `int` by the verb `%v`. -/
def fmtInt (n : Nat) : String := toString n

/-- Rendering of a `[]string` by the verb `%v`: the elements separated by one space,
in square brackets. -/
def fmtStrings (xs : List String) : String :=
  "[" ++ " ".intercalate xs ++ "]"

/-- The function `validateArgs`. -/
def validateArgs (args expectedArgs : List String) : GoError :=
  if args.length ≠ expectedArgs.length then
    some ("This command needs " ++ fmtInt expectedArgs.length ++ " argument(s): "
      ++ fmtStrings expectedArgs)
  else none

/-- The function `ReadConfig`. -/
def ReadConfig (h : Host) (s : State) : DraftConfig × GoError :=
  let path := h.config s.draftHome
  match h.openFile path with
  | .fail err =>
    if err.notExist then (none, none)
    else (none, some ("Could not open file " ++ path ++ ": " ++ err.text))
  | .file contents =>
    let r := h.decode contents
    match r.err with
    | some e => (none, some ("Could not decode config " ++ path ++ ": " ++ e))
    | none => (r.data, none)

/-- The hook `PersistentPreRunE` of the root command: the state it leaves and the
error it returns. -/
def PersistentPreRunE (h : Host) (s : State) : State × GoError :=
  let s1 := if s.flagDebug then { s with logLevel := LogLevel.debug } else s
  let s2 := { s1 with env := setenv s1.env homeEnvVar s1.draftHome }
  let r := ReadConfig h s2
  ({ s2 with globalConfig := r.1 }, r.2)

/-- The function `main`: the exit code of the process. The dispatch of cobra,
`rootCmd.Execute`, is given as a function of the state; `os.Exit(1)` ends the
process with code 1 and returning from `main` ends it with code 0. -/
def main (execute : State → State × GoError) (s : State) : Nat :=
  match (execute s).2 with
  | some _ => 1
  | none => 0

/-- One string occurs inside another as a contiguous run of characters. -/
def Contains (s sub : String) : Prop := sub.data <:+: s.data

instance (s sub : String) : Decidable (Contains s sub) := by
  unfold Contains; infer_instance

/-! ## Sample hosts

Concrete hosts on which the theorems below are exercised. -/

/-- A small file system: one readable and well-formed config file, one readable config
file the decoder rejects after it stored an entry, one config file that cannot be opened;
every other path does not exist. -/
def sampleOpen (path : String) : OpenResult :=
  if path = "/home/u/.draft/config.toml" then OpenResult.file "key = \"value\""
  else if path = "/home/bad/.draft/config.toml" then OpenResult.file "a = \"x\"\nb = 1"
  else if path = "/root/.draft/config.toml" then
    OpenResult.fail ⟨"open /root/.draft/config.toml: permission denied", false⟩
  else OpenResult.fail ⟨"open " ++ path ++ ": no such file or directory", true⟩

/-- A decoder for the two files of `sampleOpen`. -/
def sampleDecode (contents : String) : DecodeResult :=
  if contents = "key = \"value\"" then ⟨some [("key", "value")], none⟩
  else ⟨some [("a", "x")], some "toml: incompatible types: TOML value has type int64; destination has type string"⟩

/-- A host that is not Windows. Its join separates the non-empty elements by a slash,
as `filepath.Join` does there for elements that need no cleaning. -/
def linuxHost : Host where
  goos := "linux"
  join := fun xs => "/".intercalate (xs.filter (fun x => x ≠ ""))
  config := fun home => home ++ "/config.toml"
  openFile := sampleOpen
  decode := sampleDecode

/-- A Windows host. Its join separates the non-empty elements by a backslash, as
`filepath.Join` does there for elements that need no cleaning. -/
def windowsHost : Host where
  goos := "windows"
  join := fun xs => "\\".intercalate (xs.filter (fun x => x ≠ ""))
  config := fun home => home ++ "\\config.toml"
  openFile := sampleOpen
  decode := sampleDecode

/-- An environment in which only `HOME` is set. -/
def homeOnlyEnv : Environ := fun k => if k = "HOME" then "/home/u" else ""

/-- An environment in which only `USERPROFILE` is set. -/
def profileOnlyEnv : Environ := fun k => if k = "USERPROFILE" then "C:\\Users\\u" else ""

/-- An environment of a Windows host in which only `HOME` is set. -/
def windowsHomeEnv : Environ := fun k => if k = "HOME" then "D:\\home\\u" else ""

/-- A state before `newRootCmd` ran: no home, no config, default log level. -/
def initState (env : Environ) : State where
  flagDebug := false
  draftHome := ""
  globalConfig := none
  env := env
  logLevel := LogLevel.info

/-- A state whose home is `home` and that still holds a stale config. -/
def staleState (home : String) : State where
  flagDebug := true
  draftHome := home
  globalConfig := some [("old", "entry")]
  env := homeOnlyEnv
  logLevel := LogLevel.info

/-! ## Regular files under `os.Open` -/

/-- The regular files of a POSIX file system, by path, with their contents. The
directories above them exist as well, and nothing else does. -/
abbrev Files := List (String × String)

/-- The path names one of the regular files: the file exists. -/
def fileExists (files : Files) (path : String) : Bool :=
  files.any (fun f => decide (f.1 = path))

/-- A component that the path uses as a directory is one of the regular files. -/
def belowRegularFile (files : Files) (path : String) : Bool :=
  files.any (fun f => (f.1 ++ "/").data.isPrefixOf path.data)

/-- The function `os.Open` of a POSIX host on a path that names no directory. A regular
file opens. A path below a regular file fails with `ENOTDIR`, on which `os.IsNotExist`
answers false. Every other path fails with `ENOENT`, on which `os.IsNotExist` answers
true. -/
def openOn (files : Files) (path : String) : OpenResult :=
  match files.find? (fun f => decide (f.1 = path)) with
  | some f => OpenResult.file f.2
  | none =>
    if belowRegularFile files path then
      OpenResult.fail ⟨"open " ++ path ++ ": not a directory", false⟩
    else OpenResult.fail ⟨"open " ++ path ++ ": no such file or directory", true⟩

/-- The host that is not Windows, running on the given regular files. -/
def posixHost (files : Files) : Host :=
  { linuxHost with openFile := openOn files }

/-- The files of a user who keeps notes in the regular file `/home/u/notes`. -/
def notesFiles : Files := [("/home/u/notes", "buy milk")]

/-- The sentence of the spec on a missing config file, read on a host that runs on the
given files: for every home, when the config file under it does not exist, `ReadConfig`
returns the `nil` config together with the `nil` error. -/
def MissingConfigIsNoFailure (files : Files) : Prop :=
  ∀ s : State, fileExists files ((posixHost files).config s.draftHome) = false →
    ReadConfig (posixHost files) s = (none, none)

/-! ## Auxiliary facts -/

theorem contains_of_eq_append {msg a sub b : String} (hmsg : msg = a ++ sub ++ b) :
    Contains msg sub := by
  subst hmsg
  exact ⟨a.data, b.data, by simp [String.data_append]⟩

theorem getenv_setenv_same (env : Environ) (key value : String) :
    getenv (setenv env key value) key = value := by
  simp [getenv, setenv]

theorem getenv_setenv_other (env : Environ) (key value other : String) (hne : other ≠ key) :
    getenv (setenv env key value) other = getenv env other := by
  simp [getenv, setenv, hne]

theorem ReadConfig_of_same_home (h : Host) (s t : State) (hhome : s.draftHome = t.draftHome) :
    ReadConfig h s = ReadConfig h t := by
  simp [ReadConfig, hhome]

theorem ReadConfig_error_config_none (h : Host) (s : State) (hfail : (ReadConfig h s).2 ≠ none) :
    (ReadConfig h s).1 = none := by
  unfold ReadConfig at hfail ⊢
  cases hopen : h.openFile (h.config s.draftHome) with
  | fail e =>
    cases hne : e.notExist <;> simp [hopen, hne] at hfail ⊢
  | file contents =>
    cases hdec : (h.decode contents).err with
    | some cause => simp [hopen, hdec]
    | none => simp [hopen, hdec] at hfail

theorem defaultDraftHome_of_home_set (h : Host) (env : Environ)
    (hset : getenv env homeEnvVar ≠ "") : defaultDraftHome h env = getenv env homeEnvVar := by
  simp [defaultDraftHome, hset]

/-! ## Home resolution -/

/-- C1: the effective home follows the precedence flag, then environment, then default
of the operating system. For every host (Windows or not), every environment and every
flag state, `draftHome` after `newRootCmd` and flag parsing is the value of `--home` when
the user gave the flag; otherwise the value of `DRAFT_HOME` when that is not empty;
otherwise the path `filepath.Join` builds from the home directory of the user and
`.draft`, the home directory being `USERPROFILE` on Windows with an empty `HOME` and
`HOME` in every other case. -/
theorem home_resolution_precedence (h : Host) (s : State) (flag : Option String) :
    (∀ v, flag = some v → (parseHomeFlag flag (newRootCmd h s)).draftHome = v) ∧
    (flag = none → getenv s.env homeEnvVar ≠ "" →
      (parseHomeFlag flag (newRootCmd h s)).draftHome = getenv s.env homeEnvVar) ∧
    (flag = none → getenv s.env homeEnvVar = "" → h.goos = "windows" →
      getenv s.env "HOME" = "" →
      (parseHomeFlag flag (newRootCmd h s)).draftHome
        = h.join [getenv s.env "USERPROFILE", ".draft"]) ∧
    (flag = none → getenv s.env homeEnvVar = "" →
      (h.goos ≠ "windows" ∨ getenv s.env "HOME" ≠ "") →
      (parseHomeFlag flag (newRootCmd h s)).draftHome
        = h.join [getenv s.env "HOME", ".draft"]) := by
  refine ⟨?_, ?_, ?_, ?_⟩
  · intro v hv
    subst hv
    rfl
  · intro hflag hset
    subst hflag
    exact defaultDraftHome_of_home_set h s.env hset
  · intro hflag hunset hwin hhome
    subst hflag
    simp [parseHomeFlag, newRootCmd, defaultDraftHome, hunset, hwin, hhome]
  · intro hflag hunset hcase
    subst hflag
    rcases hcase with hos | hhome
    · simp [parseHomeFlag, newRootCmd, defaultDraftHome, hunset, hos]
    · simp [parseHomeFlag, newRootCmd, defaultDraftHome, hunset, hhome]

/-- Witness of C1: the four cases on the sample hosts. A flag beats a set `DRAFT_HOME`;
a set `DRAFT_HOME` beats the default; Windows with an empty `HOME` takes `USERPROFILE`;
a host that is not Windows takes `HOME`. -/
theorem home_resolution_precedence_witness :
    (parseHomeFlag (some "/opt/draft")
      (newRootCmd linuxHost (initState (setenv homeOnlyEnv homeEnvVar "/srv/draft")))).draftHome
      = "/opt/draft" ∧
    (parseHomeFlag none
      (newRootCmd linuxHost (initState (setenv homeOnlyEnv homeEnvVar "/srv/draft")))).draftHome
      = "/srv/draft" ∧
    (parseHomeFlag none (newRootCmd windowsHost (initState profileOnlyEnv))).draftHome
      = "C:\\Users\\u\\.draft" ∧
    (parseHomeFlag none (newRootCmd linuxHost (initState homeOnlyEnv))).draftHome
      = "/home/u/.draft" :=
  ⟨(home_resolution_precedence linuxHost
      (initState (setenv homeOnlyEnv homeEnvVar "/srv/draft")) (some "/opt/draft")).1 _ rfl,
    (home_resolution_precedence linuxHost
      (initState (setenv homeOnlyEnv homeEnvVar "/srv/draft")) none).2.1 rfl (by decide),
    (home_resolution_precedence windowsHost (initState profileOnlyEnv) none).2.2.1
      rfl (by decide) (by decide) (by decide),
    (home_resolution_precedence linuxHost (initState homeOnlyEnv) none).2.2.2
      rfl (by decide) (Or.inl (by decide))⟩

/-- C2: with `DRAFT_HOME` empty or unset, `defaultDraftHome` returns
`filepath.Join(dir, ".draft")` where `dir` is `HOME`, except on Windows with an empty
`HOME`, where it is `USERPROFILE`. For every environment, two environments that differ
at most in `USERPROFILE` give the same result when the host is not Windows or `HOME` is
not empty. The function returns a path for every host and environment. -/
theorem default_home_without_override (h : Host) (env : Environ) :
    (getenv env homeEnvVar = "" →
      defaultDraftHome h env
        = h.join [if getenv env "HOME" = "" ∧ h.goos = "windows"
                  then getenv env "USERPROFILE" else getenv env "HOME", ".draft"]) ∧
    (getenv env homeEnvVar = "" → (h.goos ≠ "windows" ∨ getenv env "HOME" ≠ "") →
      defaultDraftHome h env = h.join [getenv env "HOME", ".draft"]) ∧
    (∀ env2 : Environ, (∀ k, k ≠ "USERPROFILE" → env2 k = env k) →
      (h.goos ≠ "windows" ∨ getenv env "HOME" ≠ "") →
      defaultDraftHome h env2 = defaultDraftHome h env) ∧
    (∃ path : String, defaultDraftHome h env = path) := by
  refine ⟨?_, ?_, ?_, ⟨_, rfl⟩⟩
  · intro hunset
    simp [defaultDraftHome, hunset]
  · intro hunset hcase
    rcases hcase with hos | hhome
    · simp [defaultDraftHome, hunset, hos]
    · simp [defaultDraftHome, hunset, hhome]
  · intro env2 hagree hcase
    have hdraft : env2 "DRAFT_HOME" = env "DRAFT_HOME" := hagree _ (by decide)
    have hhome2 : env2 "HOME" = env "HOME" := hagree _ (by decide)
    rcases hcase with hos | hhome
    · simp [defaultDraftHome, getenv, homeEnvVar, hdraft, hhome2, hos]
    · simp only [getenv] at hhome
      simp [defaultDraftHome, getenv, homeEnvVar, hdraft, hhome2, hhome]

/-- Witness of C2: on the Windows sample host with only `HOME` set the result comes
from `HOME`, and setting `USERPROFILE` as well does not change it. -/
theorem default_home_without_override_witness :
    defaultDraftHome windowsHost windowsHomeEnv = "D:\\home\\u\\.draft" ∧
    defaultDraftHome windowsHost (setenv windowsHomeEnv "USERPROFILE" "C:\\Users\\u")
      = defaultDraftHome windowsHost windowsHomeEnv :=
  ⟨(default_home_without_override windowsHost windowsHomeEnv).2.1
      (by decide) (Or.inr (by decide)),
    (default_home_without_override windowsHost windowsHomeEnv).2.2.1
      (setenv windowsHomeEnv "USERPROFILE" "C:\\Users\\u")
      (fun k hk => by simp [setenv, hk]) (Or.inr (by decide))⟩

/-! ## Loading of the configuration -/

/-- C3, as the spec states it, fails: with the regular file `/home/u/notes` given as
the home, the config file `/home/u/notes/config.toml` does not exist, `os.Open` fails
with `ENOTDIR`, on which `os.IsNotExist` answers false, and `ReadConfig` reports the
missing file as a failure to open it. -/
theorem read_config_missing_file_below_regular_file :
    fileExists notesFiles "/home/u/notes" = true ∧
    fileExists notesFiles ((posixHost notesFiles).config "/home/u/notes") = false ∧
    (posixHost notesFiles).openFile ((posixHost notesFiles).config "/home/u/notes")
      = OpenResult.fail ⟨"open /home/u/notes/config.toml: not a directory", false⟩ ∧
    ReadConfig (posixHost notesFiles) (staleState "/home/u/notes")
      = (none, some ("Could not open file /home/u/notes/config.toml: "
          ++ "open /home/u/notes/config.toml: not a directory")) ∧
    ¬ MissingConfigIsNoFailure notesFiles := by
  refine ⟨by decide, by decide, by decide, by decide, ?_⟩
  intro hclaim
  exact absurd (hclaim (staleState "/home/u/notes") (by decide)) (by decide)

/-- C3, amended: for every home, when opening the config file under it fails with a
not-exist error (an error on which `os.IsNotExist` answers true), `ReadConfig` returns
the `nil` config together with the `nil` error. -/
theorem read_config_missing_file (h : Host) (s : State) (e : OsError)
    (hopen : h.openFile (h.config s.draftHome) = OpenResult.fail e)
    (hmissing : e.notExist = true) :
    ReadConfig h s = (none, none) := by
  simp [ReadConfig, hopen, hmissing]

/-- Witness of C3, amended: a home without a config file on the sample host. -/
theorem read_config_missing_file_witness :
    ReadConfig linuxHost (staleState "/nowhere") = (none, none) :=
  read_config_missing_file linuxHost (staleState "/nowhere")
    ⟨"open /nowhere/config.toml: no such file or directory", true⟩ (by decide) rfl

/-- C4: for every home and every file content the decoder rejects, `ReadConfig` returns
an error whose text holds the path of the config file under that home and the cause the
decoder gave, and the config it returns is `nil`, whatever the decoder had stored
before it failed. -/
theorem read_config_decode_failure (h : Host) (s : State) (contents cause : String)
    (hopen : h.openFile (h.config s.draftHome) = OpenResult.file contents)
    (hreject : (h.decode contents).err = some cause) :
    ∃ msg : String,
      ReadConfig h s = (none, some msg) ∧
      msg = "Could not decode config " ++ h.config s.draftHome ++ ": " ++ cause ∧
      Contains msg (h.config s.draftHome) ∧
      Contains msg cause ∧
      (ReadConfig h s).1.entries = [] := by
  refine ⟨"Could not decode config " ++ h.config s.draftHome ++ ": " ++ cause, ?_, rfl, ?_, ?_, ?_⟩
  · simp [ReadConfig, hopen, hreject]
  · exact contains_of_eq_append (a := "Could not decode config ") (b := ": " ++ cause)
      (by simp [String.append_assoc])
  · exact contains_of_eq_append (a := "Could not decode config " ++ h.config s.draftHome ++ ": ")
      (b := "") (by simp)
  · simp [ReadConfig, hopen, hreject, DraftConfig.entries]

/-- Witness of C4: on the sample host the decoder stored the entry `a` before it
rejected the file under `/home/bad/.draft`; the entry is not returned. -/
theorem read_config_decode_failure_witness :
    (sampleDecode "a = \"x\"\nb = 1").data = some [("a", "x")] ∧
    ∃ msg : String,
      ReadConfig linuxHost (staleState "/home/bad/.draft") = (none, some msg) ∧
      msg = "Could not decode config " ++ linuxHost.config "/home/bad/.draft" ++ ": "
        ++ "toml: incompatible types: TOML value has type int64; destination has type string" ∧
      Contains msg (linuxHost.config "/home/bad/.draft") ∧
      Contains msg
        "toml: incompatible types: TOML value has type int64; destination has type string" ∧
      (ReadConfig linuxHost (staleState "/home/bad/.draft")).1.entries = [] :=
  ⟨by decide,
    read_config_decode_failure linuxHost (staleState "/home/bad/.draft") "a = \"x\"\nb = 1"
      "toml: incompatible types: TOML value has type int64; destination has type string"
      (by decide) (by decide)⟩

/-- C5: for every home, when opening the config file fails, `ReadConfig` returns the
`nil` config; when the failure is not a not-exist error the returned error is not `nil`
and its text holds the path of the config file and the text of the error of `os.Open`;
and the result is (`nil`, `nil`) exactly when the failure is a not-exist error. -/
theorem read_config_open_failure (h : Host) (s : State) (e : OsError)
    (hopen : h.openFile (h.config s.draftHome) = OpenResult.fail e) :
    (ReadConfig h s).1 = none ∧
    (e.notExist = false →
      ∃ msg : String,
        ReadConfig h s = (none, some msg) ∧
        msg = "Could not open file " ++ h.config s.draftHome ++ ": " ++ e.text ∧
        Contains msg (h.config s.draftHome) ∧
        Contains msg e.text) ∧
    (ReadConfig h s = (none, none) ↔ e.notExist = true) := by
  refine ⟨?_, ?_, ?_⟩
  · cases hne : e.notExist <;> simp [ReadConfig, hopen, hne]
  · intro hother
    refine ⟨"Could not open file " ++ h.config s.draftHome ++ ": " ++ e.text, ?_, rfl, ?_, ?_⟩
    · simp [ReadConfig, hopen, hother]
    · exact contains_of_eq_append (a := "Could not open file ") (b := ": " ++ e.text)
        (by simp [String.append_assoc])
    · exact contains_of_eq_append (a := "Could not open file " ++ h.config s.draftHome ++ ": ")
        (b := "") (by simp)
  · cases hne : e.notExist <;> simp [ReadConfig, hopen, hne]

/-- Witness of C5: a config file that exists and cannot be opened on the sample host. -/
theorem read_config_open_failure_witness :
    (ReadConfig linuxHost (staleState "/root/.draft")).1 = none ∧
    (false = false →
      ∃ msg : String,
        ReadConfig linuxHost (staleState "/root/.draft") = (none, some msg) ∧
        msg = "Could not open file " ++ linuxHost.config "/root/.draft" ++ ": "
          ++ "open /root/.draft/config.toml: permission denied" ∧
        Contains msg (linuxHost.config "/root/.draft") ∧
        Contains msg "open /root/.draft/config.toml: permission denied") ∧
    (ReadConfig linuxHost (staleState "/root/.draft") = (none, none) ↔ false = true) :=
  read_config_open_failure linuxHost (staleState "/root/.draft")
    ⟨"open /root/.draft/config.toml: permission denied", false⟩ (by decide)

/-! ## Argument count -/

/-- C6: `validateArgs` returns an error exactly when the number of arguments differs
from the number of expected arguments; so too few and too many arguments fail and the
exact number succeeds, whatever the arguments are. -/
theorem validateArgs_error_iff (args expectedArgs : List String) :
    (validateArgs args expectedArgs ≠ none ↔ args.length ≠ expectedArgs.length) ∧
    (args.length < expectedArgs.length → validateArgs args expectedArgs ≠ none) ∧
    (expectedArgs.length < args.length → validateArgs args expectedArgs ≠ none) ∧
    (args.length = expectedArgs.length → validateArgs args expectedArgs = none) := by
  refine ⟨?_, ?_, ?_, ?_⟩
  · by_cases hlen : args.length = expectedArgs.length <;> simp [validateArgs, hlen]
  · intro hlt
    simp [validateArgs, Nat.ne_of_lt hlt]
  · intro hgt
    simp [validateArgs, Nat.ne_of_gt hgt]
  · intro hlen
    simp [validateArgs, hlen]

/-- C7, as the spec states it, fails: with one argument given and none expected the
message is `This command needs 0 argument(s): []`, which does not hold the actual count
1, and two arguments given with none expected produce the very same message. -/
theorem validateArgs_message_lacks_actual_count :
    validateArgs ["a"] [] = some "This command needs 0 argument(s): []" ∧
    ¬ Contains "This command needs 0 argument(s): []" (fmtInt ["a"].length) ∧
    ["a"].length ≠ ["a", "b"].length ∧
    validateArgs ["a", "b"] [] = validateArgs ["a"] [] := by
  decide

/-- C7, amended: whenever `validateArgs` fails, the error it returns identifies the
expected arguments only. Its text is `This command needs N argument(s): L` with `N` the
number of expected arguments and `L` their list, it holds `N` and `L`, and it is the
same for every wrong number of arguments given. -/
theorem validateArgs_message_expected_only (args expectedArgs : List String)
    (hlen : args.length ≠ expectedArgs.length) :
    ∃ msg : String,
      validateArgs args expectedArgs = some msg ∧
      msg = "This command needs " ++ fmtInt expectedArgs.length ++ " argument(s): "
        ++ fmtStrings expectedArgs ∧
      Contains msg (fmtInt expectedArgs.length) ∧
      Contains msg (fmtStrings expectedArgs) ∧
      ∀ args2 : List String, args2.length ≠ expectedArgs.length →
        validateArgs args2 expectedArgs = some msg := by
  refine ⟨"This command needs " ++ fmtInt expectedArgs.length ++ " argument(s): "
    ++ fmtStrings expectedArgs, ?_, rfl, ?_, ?_, ?_⟩
  · simp [validateArgs, hlen]
  · exact contains_of_eq_append (a := "This command needs ")
      (b := " argument(s): " ++ fmtStrings expectedArgs) (by simp [String.append_assoc])
  · exact contains_of_eq_append
      (a := "This command needs " ++ fmtInt expectedArgs.length ++ " argument(s): ")
      (b := "") (by simp)
  · intro args2 hlen2
    simp [validateArgs, hlen2]

/-- Witness of C7, amended: one argument given where two are expected. -/
theorem validateArgs_message_expected_only_witness :
    ∃ msg : String,
      validateArgs ["a"] ["name", "path"] = some msg ∧
      msg = "This command needs " ++ fmtInt ["name", "path"].length ++ " argument(s): "
        ++ fmtStrings ["name", "path"] ∧
      Contains msg (fmtInt ["name", "path"].length) ∧
      Contains msg (fmtStrings ["name", "path"]) ∧
      ∀ args2 : List String, args2.length ≠ ["name", "path"].length →
        validateArgs args2 ["name", "path"] = some msg :=
  validateArgs_message_expected_only ["a"] ["name", "path"] (by decide)

/-! ## The hook and the exit code -/

/-- C8: the hook fails exactly when the load of the config fails. For every state the
error the hook returns is the error `ReadConfig` returns (in the state in which the hook
calls it, and in the state before the hook as well); when `ReadConfig` succeeds the hook
returns `nil` and `globalConfig` is the loaded config; when `ReadConfig` fails
`globalConfig` is `nil` and holds no entries, whatever it held before. -/
theorem hook_fails_exactly_when_load_fails (h : Host) (s : State) :
    (PersistentPreRunE h s).2 = (ReadConfig h s).2 ∧
    (PersistentPreRunE h s).2 = (ReadConfig h (PersistentPreRunE h s).1).2 ∧
    ((PersistentPreRunE h s).2 ≠ none ↔ (ReadConfig h s).2 ≠ none) ∧
    (PersistentPreRunE h s).1.globalConfig = (ReadConfig h s).1 ∧
    ((ReadConfig h s).2 = none → (PersistentPreRunE h s).2 = none) ∧
    ((ReadConfig h s).2 ≠ none →
      (PersistentPreRunE h s).1.globalConfig = none ∧
      (PersistentPreRunE h s).1.globalConfig.entries = []) := by
  have hcall : ∀ t : State, t.draftHome = s.draftHome → ReadConfig h t = ReadConfig h s :=
    fun t ht => ReadConfig_of_same_home h t s ht
  have hhome : (PersistentPreRunE h s).1.draftHome = s.draftHome := by
    unfold PersistentPreRunE
    cases s.flagDebug <;> rfl
  have herr : (PersistentPreRunE h s).2 = (ReadConfig h s).2 := by
    unfold PersistentPreRunE
    cases s.flagDebug <;> exact congrArg Prod.snd (hcall _ rfl)
  have hcfg : (PersistentPreRunE h s).1.globalConfig = (ReadConfig h s).1 := by
    unfold PersistentPreRunE
    cases s.flagDebug <;> exact congrArg Prod.fst (hcall _ rfl)
  refine ⟨herr, ?_, ?_, hcfg, ?_, ?_⟩
  · rw [herr, hcall _ hhome]
  · rw [herr]
  · intro hok
    rw [herr, hok]
  · intro hfail
    have hnone := ReadConfig_error_config_none h s hfail
    rw [hcfg, hnone]
    exact ⟨rfl, rfl⟩

/-- Witness of C8: on the sample host a state that holds a stale config and whose
config file the decoder rejects leaves the hook with an error and without any entry. -/
theorem hook_fails_exactly_when_load_fails_witness :
    (ReadConfig linuxHost (staleState "/home/bad/.draft")).2 ≠ none ∧
    (staleState "/home/bad/.draft").globalConfig = some [("old", "entry")] ∧
    (PersistentPreRunE linuxHost (staleState "/home/bad/.draft")).1.globalConfig = none ∧
    (PersistentPreRunE linuxHost (staleState "/home/bad/.draft")).1.globalConfig.entries = [] :=
  ⟨by decide, rfl,
    (hook_fails_exactly_when_load_fails linuxHost (staleState "/home/bad/.draft")).2.2.2.2.2
      (by decide)⟩

/-- C9: the exit code is a function of the dispatch result only. For every dispatch and
state, `main` ends with code 1 exactly when `rootCmd.Execute` returns an error, whatever
the error is, with code 0 exactly when it returns `nil`, and with no other code. -/
theorem exit_code_of_dispatch (execute : State → State × GoError) (s : State) :
    (main execute s = 1 ↔ (execute s).2 ≠ none) ∧
    (main execute s = 0 ↔ (execute s).2 = none) ∧
    (main execute s = 0 ∨ main execute s = 1) ∧
    (∀ (execute2 : State → State × GoError) (s2 : State),
      ((execute s).2 = none ↔ (execute2 s2).2 = none) → main execute s = main execute2 s2) := by
  refine ⟨?_, ?_, ?_, ?_⟩
  · cases hres : (execute s).2 <;> simp [main, hres]
  · cases hres : (execute s).2 <;> simp [main, hres]
  · cases hres : (execute s).2 <;> simp [main, hres]
  · intro execute2 s2 hsame
    cases hres : (execute s).2 <;> cases hres2 : (execute2 s2).2 <;>
      simp [main, hres, hres2] <;> simp [hres, hres2] at hsame

/-- C10: the hook exports the home so that resolving it again agrees with it. For
every home held in `draftHome`, after the hook `DRAFT_HOME` reads as that home, whether
the load of the config fails or not, and the config is loaded in a state in which
`DRAFT_HOME` already reads so; and when the home is not empty, `defaultDraftHome` returns
exactly that home on every host and in every environment that agrees with the resulting
one on `DRAFT_HOME`, whatever `HOME`, `USERPROFILE` and the operating system are. -/
theorem hook_exports_home (h : Host) (s : State) :
    getenv (PersistentPreRunE h s).1.env homeEnvVar = s.draftHome ∧
    (∃ t : State, getenv t.env homeEnvVar = s.draftHome ∧ t.draftHome = s.draftHome ∧
      PersistentPreRunE h s = ({ t with globalConfig := (ReadConfig h t).1 }, (ReadConfig h t).2)) ∧
    (s.draftHome ≠ "" →
      ∀ (h2 : Host) (env2 : Environ),
        getenv env2 homeEnvVar = getenv (PersistentPreRunE h s).1.env homeEnvVar →
        defaultDraftHome h2 env2 = s.draftHome) := by
  have henv : getenv (PersistentPreRunE h s).1.env homeEnvVar = s.draftHome := by
    unfold PersistentPreRunE
    cases s.flagDebug <;> exact getenv_setenv_same _ _ _
  refine ⟨henv, ?_, ?_⟩
  · by_cases hdebug : s.flagDebug = true
    · refine ⟨{ s with logLevel := LogLevel.debug,
                       env := setenv s.env homeEnvVar s.draftHome }, ?_, rfl, ?_⟩
      · exact getenv_setenv_same _ _ _
      · simp [PersistentPreRunE, hdebug]
    · refine ⟨{ s with env := setenv s.env homeEnvVar s.draftHome }, ?_, rfl, ?_⟩
      · exact getenv_setenv_same _ _ _
      · simp [PersistentPreRunE, hdebug]
  · intro hnonempty h2 env2 hagree
    rw [henv] at hagree
    rw [defaultDraftHome_of_home_set h2 env2 (by rw [hagree]; exact hnonempty), hagree]

/-- Witness of C10: after the hook ran on the sample host with home `/srv/draft`,
`DRAFT_HOME` reads `/srv/draft`, although the load of the config found no file, and
the Windows sample host resolves the home to `/srv/draft` in the resulting environment. -/
theorem hook_exports_home_witness :
    getenv (PersistentPreRunE linuxHost (staleState "/srv/draft")).1.env homeEnvVar
      = "/srv/draft" ∧
    defaultDraftHome windowsHost (PersistentPreRunE linuxHost (staleState "/srv/draft")).1.env
      = "/srv/draft" :=
  ⟨(hook_exports_home linuxHost (staleState "/srv/draft")).1,
    (hook_exports_home linuxHost (staleState "/srv/draft")).2.2 (by decide) windowsHost _ rfl⟩

end Draft
